import Mathlib

set_option maxRecDepth 100000

/-
  Verification of the dynamic component rendering pipeline
  (server file of devforDuniya/renderer: the Express service exposing
  POST /render, which validates the request body, transforms the
  submitted JSX source with Babel, evaluates it in a function scope,
  renders the exported component to a string, and wraps it in a fixed
  HTML document template).

  The embedding below is a shallow model of that handler.  Host-level
  effects that cannot be embedded (the Babel compiler itself, the
  evaluation of arbitrary user JavaScript by the Function constructor,
  ReactDOMServer.renderToString executing the user component, and the
  filesystem reads for the stylesheet) are parameters of the model,
  collected in the Effects structure; everything the handler itself
  does (validation, the appended module-export trailer, the fixed
  Babel options, the export slot validation, the stylesheet fallback
  chain, the document template, the error mapping of the catch block)
  is translated directly from the source.

  Because the Function scope has full host access -- the require
  resolver hands user code the live component registry, and the code
  can also reach globalThis and the filesystem -- and because
  rendering executes the user's component (which may have captured
  those references), BOTH the evaluation stage and the rendering stage
  receive the shared mutable host state and return a possibly-updated
  one.  The stylesheet file contents are part of that mutable state
  and are read after rendering, matching the statement order of the
  source.
-/

/-- A JavaScript runtime value, as far as the handler inspects values:
it only ever asks for truthiness and for the result of the typeof
operator, so one reference index suffices for objects and functions.
The constructor obj denotes a non-null object (in JavaScript, null is
its own value whose typeof is nevertheless "object", so it gets its own
constructor here); arrays fall under obj. -/
inductive JsVal where
  | undef
  | null
  | bool (b : Bool)
  | num (n : Int)
  | str (s : String)
  | obj (r : Nat)
  | fn (r : Nat)
deriving Repr, DecidableEq

/-- The JavaScript typeof operator on the modelled values. -/
def typeofStr : JsVal → String
  | .undef => "undefined"
  | .null => "object"
  | .bool _ => "boolean"
  | .num _ => "number"
  | .str _ => "string"
  | .obj _ => "object"
  | .fn _ => "function"

/-- JavaScript truthiness of the modelled values (0 and the empty
string are falsy; every object and every function is truthy). -/
def truthy : JsVal → Bool
  | .undef => false
  | .null => false
  | .bool b => b
  | .num n => n != 0
  | .str s => s != ""
  | .obj _ => true
  | .fn _ => true

/-- The component registry predefinedComponents: a record mapping
component names to values.  It is loaded once at startup and handed to
evaluated user code by reference through the require resolver of the
execution context. -/
abbrev Registry := List (String × JsVal)

/-- The shared mutable host state that evaluated user code (and the
user component executed during rendering) can reach: the live
predefinedComponents registry handed out by the require resolver, the
globalThis record, and the contents of the two stylesheet paths the
handler later tries to read (none models an absent or unreadable
file; user code can reach the filesystem through the resolver's host
fallback).  This state persists across requests. -/
structure HostState where
  registry : Registry
  globals : List (String × JsVal)
  fsCssMain : Option String
  fsCssAlt : Option String
deriving Repr, DecidableEq

/-- A thrown JavaScript error as the catch block observes it:
error?.message, error?.stack, and String(error) (the last one is only
consulted when the message is absent or empty, e.g. for a thrown
non-Error value). -/
structure JsError where
  message : String
  stack : Option String := none
  strRepr : String := ""
deriving Repr, DecidableEq

/-- The options object passed to Babel.transformSync in the handler. -/
structure BabelConfig where
  filename : String
  presets : List (String × List (String × String))
  babelrc : Bool
  configFile : Bool
deriving Repr, DecidableEq

/-- The fixed configuration the handler passes to Babel.transformSync:
filename user-code.jsx, the react preset with the automatic runtime,
the env preset targeting node 18, and babelrc/configFile disabled (so
Babel consults no configuration files on disk). -/
def renderBabelConfig : BabelConfig :=
  { filename := "user-code.jsx"
    presets :=
      [ ("@babel/preset-react", [("runtime", "automatic")])
      , ("@babel/preset-env", [("targets.node", "18")]) ]
    babelrc := false
    configFile := false }

/-- The trailer the handler appends to the submitted code:
the line module.exports = MyComponent; so that after evaluation the
module record's export slot holds the user's component. -/
def moduleExportTrailer : String := "\nmodule.exports = MyComponent;"

/-- userSource from the handler: the submitted code with the fixed
module-export trailer appended. -/
def userSource (code : String) : String := code ++ moduleExportTrailer

/-- The transform step of the handler: apply the compiler (a parameter
of the model) to the trailer-extended source with the fixed
configuration.  The compiler either throws (Except.error), returns a
result without code (Option.none models a null result or an absent
code field), or returns the transformed text. -/
def transformSource (babel : String → BabelConfig → Except JsError (Option String))
    (code : String) : Except JsError (Option String) :=
  babel (userSource code) renderBabelConfig

/-- The host-level effects the handler invokes.  babel models
Babel.transformSync (pure of source and options, since babelrc and
configFile are disabled).  evalUser models running the
Function-constructor scope on the transformed code: the scope receives
the props value and, through its require resolver and host access, the
shared mutable state; it returns the possibly-updated state together
with the value left in module.exports, or the thrown error.  render
models React.createElement plus ReactDOMServer.renderToString: it
executes the user's component, which may hold the same live references,
so it too receives and returns the shared state alongside the fragment
or the thrown error.  nodeEnv is process.env.NODE_ENV. -/
structure Effects where
  babel : String → BabelConfig → Except JsError (Option String)
  evalUser : String → JsVal → HostState → HostState × Except JsError JsVal
  render : JsVal → JsVal → HostState → HostState × Except JsError String
  nodeEnv : Option String

/-- The body of a POST /render request: the code field and the props
field as arbitrary JSON-decoded values (props is none when the field
is absent). -/
structure RenderRequest where
  code : JsVal
  props : Option JsVal
deriving Repr, DecidableEq

/-- The JSON body the handler sends back, together with the HTTP
status it was sent with. -/
structure RenderResponse where
  status : Nat
  success : Bool
  html : Option String := none
  error : Option String := none
  stack : Option String := none
  message : Option String := none
deriving Repr, DecidableEq

/-- Observable outcome of one handler invocation: the response, whether
the transform step (Babel) was ever invoked, the props value passed to
the evaluation scope and to element construction (none when evaluation
was never reached), and the shared host state as the request leaves
it. -/
structure HandlerTrace where
  response : RenderResponse
  babelCalled : Bool
  evalProps : Option JsVal
  stateAfter : HostState
deriving Repr, DecidableEq

/-- The validation test of the handler, verbatim:
the request is rejected when (not code) or (typeof code is not
"string") holds. -/
def codeCheckFails (code : JsVal) : Bool :=
  !truthy code || typeofStr code != "string"

/-- The export-slot validation of the handler, verbatim: the factory
is rejected when (not ComponentFactory) or (typeof is neither
"function" nor "object") holds. -/
def factoryInvalid (v : JsVal) : Bool :=
  !truthy v || (typeofStr v != "function" && typeofStr v != "object")

/-- The 400 response of the validation rejection. -/
def noCodeResponse : RenderResponse :=
  { status := 400, success := false, error := some "No code provided" }

/-- error?.message or String(error): the text the catch block puts in
the error field. -/
def jsErrorText (e : JsError) : String :=
  if e.message = "" then e.strRepr else e.message

/-- The catch block of the handler: status 400, success false, the
originating message in error, and the stack only when NODE_ENV is
development. -/
def errorResponse (nodeEnv : Option String) (e : JsError) : RenderResponse :=
  { status := 400
    success := false
    error := some (jsErrorText e)
    stack := if nodeEnv = some "development" then e.stack else none }

/-- The destructuring default of the handler: props defaults to the
fresh empty object literal exactly when the field is absent or
undefined.  The designated value obj 0 stands for that fresh empty
object. -/
def defaultProps : JsVal := .obj 0

/-- Effective props after the destructuring default. -/
def effectiveProps : Option JsVal → JsVal
  | none => defaultProps
  | some .undef => defaultProps
  | some v => v

/-- The stylesheet fallback chain of the handler: read the main path;
on failure read the alternative path; on failure proceed with the
empty string. -/
def cssContentOf (main alt : Option String) : String :=
  match main with
  | some c => c
  | none =>
    match alt with
    | some c => c
    | none => ""

/-- Head part of the completeHTML template literal, up to the point
where cssContent is spliced in. -/
def htmlDocHead : String :=
  "<!DOCTYPE html>\n<html lang=\"en\">\n<head>\n    <meta charset=\"UTF-8\">\n    <meta name=\"viewport\" content=\"width=device-width, initial-scale=1.0\">\n    <title>React Component</title>\n    <style>\n        "

/-- Middle part of the completeHTML template literal, between the
spliced cssContent and the spliced fragment. -/
def htmlDocMid : String :=
  "\n    </style>\n</head>\n<body>\n    <div id=\"app\">\n        "

/-- Tail part of the completeHTML template literal, after the spliced
fragment. -/
def htmlDocTail : String :=
  "\n    </div>\n    \n</body>\n</html>"

/-- completeHTML from the handler: the document template with the
stylesheet content and the rendered fragment spliced in. -/
def completeHTML (cssContent html : String) : String :=
  htmlDocHead ++ cssContent ++ htmlDocMid ++ html ++ htmlDocTail

/-- The success response of the handler. -/
def successResponse (doc : String) : RenderResponse :=
  { status := 200
    success := true
    html := some doc
    message := some "Complete HTML document generated successfully" }

/-- The pipeline the handler runs once validation has passed (code is
the nonempty submitted string s, props the effective props value):
transform, check the transformed code is present and nonempty,
evaluate, validate the export slot, render, read the stylesheet from
the filesystem state as rendering left it, assemble the document.
Every thrown error lands in the catch block (errorResponse), and the
shared state carried out of the request is whatever the last executed
user-code stage (evaluation, then rendering) left behind. -/
def runPipeline (eff : Effects) (st : HostState) (s : String) (props : JsVal) :
    HandlerTrace :=
  match transformSource eff.babel s with
  | .error e =>
    { response := errorResponse eff.nodeEnv e
      babelCalled := true, evalProps := none, stateAfter := st }
  | .ok none =>
    { response := errorResponse eff.nodeEnv { message := "Babel transform failed" }
      babelCalled := true, evalProps := none, stateAfter := st }
  | .ok (some t) =>
    if t = "" then
      { response := errorResponse eff.nodeEnv { message := "Babel transform failed" }
        babelCalled := true, evalProps := none, stateAfter := st }
    else
      match eff.evalUser t props st with
      | (st2, .error e) =>
        { response := errorResponse eff.nodeEnv e
          babelCalled := true, evalProps := some props, stateAfter := st2 }
      | (st2, .ok v) =>
        if factoryInvalid v then
          { response := errorResponse eff.nodeEnv
              { message := "No valid component factory returned from user code" }
            babelCalled := true, evalProps := some props, stateAfter := st2 }
        else
          match eff.render v props st2 with
          | (st3, .error e) =>
            { response := errorResponse eff.nodeEnv e
              babelCalled := true, evalProps := some props, stateAfter := st3 }
          | (st3, .ok frag) =>
            { response := successResponse
                (completeHTML (cssContentOf st3.fsCssMain st3.fsCssAlt) frag)
              babelCalled := true, evalProps := some props, stateAfter := st3 }

/-- The POST /render handler: destructure the body, validate the code
field, and run the pipeline.  The second rejection branch of the match
is unreachable (when codeCheckFails is false the code value is a
nonempty string) and repeats the rejection response. -/
def renderHandler (eff : Effects) (st : HostState) (req : RenderRequest) :
    HandlerTrace :=
  if codeCheckFails req.code then
    { response := noCodeResponse
      babelCalled := false, evalProps := none, stateAfter := st }
  else
    match req.code with
    | .str s => runPipeline eff st s (effectiveProps req.props)
    | _ =>
      { response := noCodeResponse
        babelCalled := false, evalProps := none, stateAfter := st }

/-- A string occurs inside another (substring as plain concatenation). -/
def occursIn (p s : String) : Prop := ∃ l r, s = l ++ p ++ r

/-- Spec-side predicate for claim C9, modelled from the wording of the
spec ("stack only included outside production-like mode"):
the process is outside production-like mode when NODE_ENV is not the
production value. -/
def outsideProductionLike (env : Option String) : Prop := env ≠ some "production"

/-- A compiler instance that succeeds and returns its input unchanged
(models a Babel run on source needing no rewriting). -/
def okBabel : String → BabelConfig → Except JsError (Option String) :=
  fun src _ => .ok (some src)

/-- A compiler instance that throws, carrying a stack trace (models a
syntax error in the submitted markup). -/
def failBabel : String → BabelConfig → Except JsError (Option String) :=
  fun _ _ => .error { message := "boom", stack := some "trace line" }

/-- An evaluation instance realizing user code that touches nothing
shared: the state is returned unchanged and the export slot holds a
plain function component. -/
def pureEval : String → JsVal → HostState → HostState × Except JsError JsVal :=
  fun _ _ st => (st, .ok (.fn 1))

/-- An evaluation instance realizing user code whose export slot ends
up holding a number: neither a function nor an object. -/
def badEval : String → JsVal → HostState → HostState × Except JsError JsVal :=
  fun _ _ st => (st, .ok (.num 3))

/-- An evaluation instance realizing user code that writes a new entry
onto the shared registry through the reference the require resolver
hands it (require of the registry package returns the live
predefinedComponents record, which user code may assign into). -/
def mutEval : String → JsVal → HostState → HostState × Except JsError JsVal :=
  fun _ _ st =>
    ({ st with registry := ("Button", JsVal.num 1) :: st.registry }, .ok (.fn 1))

/-- An evaluation instance realizing user code that keeps a counter on
the shared registry: it increments the counter entry and exports a
component identified by the value it read. -/
def counterEval : String → JsVal → HostState → HostState × Except JsError JsVal :=
  fun _ _ st =>
    match st.registry with
    | ("n", JsVal.num k) :: rest =>
      ({ st with registry := ("n", JsVal.num (k + 1)) :: rest }, .ok (.fn k.toNat))
    | _ => (st, .ok (.fn 0))

/-- An evaluation instance realizing user code that keeps a counter on
globalThis instead of the registry: the registry is left untouched,
the counter global is incremented, and the exported component is
identified by the value read. -/
def globalsEval : String → JsVal → HostState → HostState × Except JsError JsVal :=
  fun _ _ st =>
    match st.globals with
    | ("c", JsVal.num k) :: rest =>
      ({ st with globals := ("c", JsVal.num (k + 1)) :: rest }, .ok (.fn k.toNat))
    | _ => (st, .ok (.fn 0))

/-- A rendering instance returning a fixed fragment and leaving the
shared state unchanged. -/
def okRender : JsVal → JsVal → HostState → HostState × Except JsError String :=
  fun _ _ st => (st, .ok "<div></div>")

/-- A rendering instance whose output depends on which function value
was exported (models a component whose markup reflects the state its
defining code observed), leaving the shared state unchanged. -/
def idxRender : JsVal → JsVal → HostState → HostState × Except JsError String :=
  fun v _ st =>
    match v with
    | .fn r => (st, .ok (toString r))
    | _ => (st, .ok "x")

/-- A rendering instance realizing a user component that writes the
shared registry while it renders (renderToString executes the user's
component, which can hold the live registry reference captured at
evaluation time). -/
def renderMutRender : JsVal → JsVal → HostState → HostState × Except JsError String :=
  fun _ _ st =>
    ({ st with registry := ("z", JsVal.num 1) :: st.registry }, .ok "<div></div>")

/-- Benign effects: everything succeeds and no stage touches the
shared state; NODE_ENV unset. -/
def effOk : Effects :=
  { babel := okBabel, evalUser := pureEval, render := okRender, nodeEnv := none }

/-- Effects whose user code mutates the shared registry at evaluation
time. -/
def effMut : Effects :=
  { babel := okBabel, evalUser := mutEval, render := okRender, nodeEnv := none }

/-- Effects whose user component mutates the shared registry while
rendering, though evaluation leaves the state unchanged. -/
def effRenderMut : Effects :=
  { babel := okBabel, evalUser := pureEval, render := renderMutRender, nodeEnv := none }

/-- Effects whose user code keeps a counter on the shared registry and
renders it. -/
def effCounter : Effects :=
  { babel := okBabel, evalUser := counterEval, render := idxRender, nodeEnv := none }

/-- Effects whose user code keeps a counter on globalThis (registry
untouched) and renders it. -/
def effGlobals : Effects :=
  { babel := okBabel, evalUser := globalsEval, render := idxRender, nodeEnv := none }

/-- Effects whose evaluated export slot holds a non-invokable value. -/
def effBad : Effects :=
  { babel := okBabel, evalUser := badEval, render := okRender, nodeEnv := none }

/-- Effects with a failing compiler and NODE_ENV set to test. -/
def effTestEnv : Effects :=
  { babel := failBabel, evalUser := pureEval, render := okRender, nodeEnv := some "test" }

/-- Effects with a failing compiler and NODE_ENV set to development. -/
def effDevEnv : Effects :=
  { babel := failBabel, evalUser := pureEval, render := okRender, nodeEnv := some "development" }

/-- The empty shared state: empty registry and globals, both
stylesheet reads failing. -/
def st0 : HostState :=
  { registry := [], globals := [], fsCssMain := none, fsCssAlt := none }

/-- A shared state with readable stylesheet content at the main path. -/
def stCssA : HostState :=
  { registry := [], globals := [], fsCssMain := some "body-css-A", fsCssAlt := none }

/-- The same shared state after the stylesheet file on disk changed. -/
def stCssB : HostState :=
  { registry := [], globals := [], fsCssMain := some "body-css-B", fsCssAlt := none }

/-- A shared state carrying a registry counter. -/
def stCounter : HostState :=
  { registry := [("n", JsVal.num 0)], globals := [], fsCssMain := none, fsCssAlt := none }

/-- A shared state carrying a globalThis counter and an empty
registry. -/
def stGlobals : HostState :=
  { registry := [], globals := [("c", JsVal.num 0)], fsCssMain := none, fsCssAlt := none }

/-- A fixed request with nonempty code and absent props. -/
def reqX : RenderRequest := { code := JsVal.str "x", props := none }

/-- The validation rejection coincides with the catch-block shape:
its body equals the error response for a message-only error, whatever
the environment. -/
theorem noCodeResponse_eq_errorResponse (env : Option String) :
    noCodeResponse = errorResponse env { message := "No code provided" } := by
  simp [noCodeResponse, errorResponse, jsErrorText]

/-- Case analysis of the pipeline after validation: Babel is always
invoked; the response is a success or a catch-block error response;
the shared state either is untouched, or is exactly what the user-code
evaluation returned, or is what rendering the evaluated component then
returned; evaluation (when reached) receives the given props value;
and any html in the response is the document template around the
stylesheet content read from the state rendering left behind. -/
theorem runPipeline_cases (eff : Effects) (st : HostState) (s : String) (p : JsVal) :
    (runPipeline eff st s p).babelCalled = true ∧
    ((runPipeline eff st s p).response.success = true ∨
      ∃ e, (runPipeline eff st s p).response = errorResponse eff.nodeEnv e) ∧
    ((runPipeline eff st s p).stateAfter = st ∨
      (∃ t, (runPipeline eff st s p).stateAfter = (eff.evalUser t p st).1) ∨
      (∃ t v st2, eff.evalUser t p st = (st2, .ok v) ∧
        (runPipeline eff st s p).stateAfter = (eff.render v p st2).1)) ∧
    ((runPipeline eff st s p).evalProps = none ∨
      (runPipeline eff st s p).evalProps = some p) ∧
    (∀ doc, (runPipeline eff st s p).response.html = some doc →
      ∃ frag, doc = completeHTML
        (cssContentOf (runPipeline eff st s p).stateAfter.fsCssMain
          (runPipeline eff st s p).stateAfter.fsCssAlt) frag) ∧
    ((runPipeline eff st s p).response.success = true →
      ∃ frag, (runPipeline eff st s p).response =
        successResponse (completeHTML
          (cssContentOf (runPipeline eff st s p).stateAfter.fsCssMain
            (runPipeline eff st s p).stateAfter.fsCssAlt) frag)) := by
  unfold runPipeline
  cases hb : transformSource eff.babel s with
  | error e =>
    exact ⟨rfl, Or.inr ⟨e, rfl⟩, Or.inl rfl, Or.inl rfl,
      fun doc hdoc => by simp [errorResponse] at hdoc,
      fun hs => by simp [errorResponse] at hs⟩
  | ok oc =>
    cases oc with
    | none =>
      exact ⟨rfl, Or.inr ⟨_, rfl⟩, Or.inl rfl, Or.inl rfl,
        fun doc hdoc => by simp [errorResponse] at hdoc,
        fun hs => by simp [errorResponse] at hs⟩
    | some t =>
      dsimp only
      by_cases ht : t = ""
      · rw [if_pos ht]
        exact ⟨rfl, Or.inr ⟨_, rfl⟩, Or.inl rfl, Or.inl rfl,
          fun doc hdoc => by simp [errorResponse] at hdoc,
          fun hs => by simp [errorResponse] at hs⟩
      · rw [if_neg ht]
        cases hev : eff.evalUser t p st with
        | mk st2 res =>
          cases res with
          | error e =>
            exact ⟨rfl, Or.inr ⟨e, rfl⟩, Or.inr (Or.inl ⟨t, by rw [hev]⟩), Or.inr rfl,
              fun doc hdoc => by simp [errorResponse] at hdoc,
              fun hs => by simp [errorResponse] at hs⟩
          | ok v =>
            dsimp only
            by_cases hv : factoryInvalid v = true
            · rw [if_pos hv]
              exact ⟨rfl, Or.inr ⟨_, rfl⟩, Or.inr (Or.inl ⟨t, by rw [hev]⟩), Or.inr rfl,
                fun doc hdoc => by simp [errorResponse] at hdoc,
                fun hs => by simp [errorResponse] at hs⟩
            · rw [if_neg hv]
              cases hr : eff.render v p st2 with
              | mk st3 rres =>
                cases rres with
                | error e =>
                  exact ⟨rfl, Or.inr ⟨e, rfl⟩,
                    Or.inr (Or.inr ⟨t, v, st2, hev, by rw [hr]⟩), Or.inr rfl,
                    fun doc hdoc => by simp [errorResponse] at hdoc,
                    fun hs => by simp [errorResponse] at hs⟩
                | ok frag =>
                  exact ⟨rfl, Or.inl rfl,
                    Or.inr (Or.inr ⟨t, v, st2, hev, by rw [hr]⟩), Or.inr rfl,
                    fun doc hdoc => ⟨frag, by
                      simp [successResponse] at hdoc
                      exact hdoc.symm⟩,
                    fun hs => ⟨frag, rfl⟩⟩

/-- codeCheckFails holds exactly on values that are not strings or are
the empty string: no trimming is involved. -/
theorem codeCheckFails_iff (v : JsVal) :
    codeCheckFails v = true ↔ ((¬ ∃ t, v = JsVal.str t) ∨ v = JsVal.str "") := by
  cases v <;> simp [codeCheckFails, truthy, typeofStr]

/-- The transformer stage is skipped exactly when the validation test
fails. -/
theorem babelCalled_iff (eff : Effects) (st : HostState) (req : RenderRequest) :
    (renderHandler eff st req).babelCalled = false ↔ codeCheckFails req.code = true := by
  unfold renderHandler
  cases hcq : req.code with
  | str s =>
    by_cases hc : codeCheckFails (JsVal.str s) = true
    · rw [if_pos hc]; simp [hc]
    · rw [if_neg hc]
      simp only [hc, iff_false]
      have h1 := (runPipeline_cases eff st s (effectiveProps req.props)).1
      simp [h1]
  | undef => simp [codeCheckFails, truthy, typeofStr]
  | null => simp [codeCheckFails, truthy, typeofStr]
  | bool b => simp [codeCheckFails, truthy, typeofStr]
  | num n => simp [codeCheckFails, truthy, typeofStr]
  | obj r => simp [codeCheckFails, truthy, typeofStr]
  | fn r => simp [codeCheckFails, truthy, typeofStr]

/-- Top-level case analysis of the handler: either the validation
rejection fired (Babel skipped, shared state untouched) or the code
field was a string and the pipeline ran. -/
theorem renderHandler_cases (eff : Effects) (st : HostState) (req : RenderRequest) :
    ((renderHandler eff st req).response = noCodeResponse ∧
      (renderHandler eff st req).babelCalled = false ∧
      (renderHandler eff st req).evalProps = none ∧
      (renderHandler eff st req).stateAfter = st) ∨
    (∃ s, req.code = JsVal.str s ∧
      renderHandler eff st req = runPipeline eff st s (effectiveProps req.props)) := by
  unfold renderHandler
  by_cases hc : codeCheckFails req.code = true
  · rw [if_pos hc]; exact Or.inl ⟨rfl, rfl, rfl, rfl⟩
  · rw [if_neg hc]
    cases hcq : req.code with
    | str s => exact Or.inr ⟨s, rfl, rfl⟩
    | undef => rw [hcq] at hc; simp [codeCheckFails, truthy, typeofStr] at hc
    | null => rw [hcq] at hc; simp [codeCheckFails, truthy, typeofStr] at hc
    | bool b => rw [hcq] at hc; simp [codeCheckFails, truthy, typeofStr] at hc
    | num n => rw [hcq] at hc; simp [codeCheckFails, truthy, typeofStr] at hc
    | obj r => rw [hcq] at hc; simp [codeCheckFails, truthy, typeofStr] at hc
    | fn r => rw [hcq] at hc; simp [codeCheckFails, truthy, typeofStr] at hc

/-- Claim C1, counterexample: for the whitespace-only code field
consisting of one space, the handler does NOT reject before the
transformer: the validation test passes, Babel is invoked, and (with
benign transform, evaluation and rendering, realizable by the Function
scope) the request even succeeds -- refuting both the claimed
if-and-only-if condition (empty after trimming) and the claimed
rejection before the transformer. -/
theorem claim_C1_counterexample :
    (" ".data.all Char.isWhitespace = true) ∧
    (renderHandler effOk st0 { code := JsVal.str " ", props := none }).babelCalled = true ∧
    (renderHandler effOk st0 { code := JsVal.str " ", props := none }).response.success = true := by
  refine ⟨by decide, rfl, rfl⟩

/-- Claim C1 (amended): the handler skips the transformer and returns
the 400 rejection (success false, error "No code provided") exactly
when the code field is missing, not a string, or the empty string --
without trimming; a whitespace-only code field passes validation and
the transformer is invoked. -/
theorem claim_C1_theorem (eff : Effects) (st : HostState) (req : RenderRequest) :
    ((renderHandler eff st req).babelCalled = false ↔
      ((¬ ∃ t, req.code = JsVal.str t) ∨ req.code = JsVal.str "")) ∧
    (codeCheckFails req.code = true →
      (renderHandler eff st req).response = noCodeResponse) := by
  constructor
  · rw [babelCalled_iff, codeCheckFails_iff]
  · intro h
    unfold renderHandler
    rw [if_pos h]

/-- Claim C1, witness at the empty-string code field. -/
theorem claim_C1_witness :
    (renderHandler effOk st0 { code := JsVal.str "", props := none }).response = noCodeResponse ∧
    ((renderHandler effOk st0 { code := JsVal.str "", props := none }).babelCalled = false ↔
      ((¬ ∃ t, (JsVal.str "" : JsVal) = JsVal.str t) ∨ (JsVal.str "" : JsVal) = JsVal.str "")) :=
  ⟨(claim_C1_theorem effOk st0 { code := JsVal.str "", props := none }).2 (by decide),
   (claim_C1_theorem effOk st0 { code := JsVal.str "", props := none }).1⟩

/-- Claim C2: the export-slot validation rejects exactly the values
that are neither functions nor non-null objects, and whenever the
evaluation of a transformed source leaves such a value in the export
slot the handler responds success false with the NoComponentError
message "No valid component factory returned from user code". -/
theorem claim_C2_theorem (eff : Effects) (st : HostState) (s t : String)
    (props : Option JsVal) (st2 : HostState) (v : JsVal)
    (hs : s ≠ "")
    (hb : transformSource eff.babel s = .ok (some t)) (ht : t ≠ "")
    (he : eff.evalUser t (effectiveProps props) st = (st2, .ok v))
    (hv : ¬ ((∃ r, v = JsVal.fn r) ∨ (∃ r, v = JsVal.obj r))) :
    (∀ w, factoryInvalid w = true ↔
      ¬ ((∃ r, w = JsVal.fn r) ∨ (∃ r, w = JsVal.obj r))) ∧
    (renderHandler eff st { code := JsVal.str s, props := props }).response =
      errorResponse eff.nodeEnv
        { message := "No valid component factory returned from user code" } := by
  have hchar : ∀ w, factoryInvalid w = true ↔
      ¬ ((∃ r, w = JsVal.fn r) ∨ (∃ r, w = JsVal.obj r)) := by
    intro w
    cases w <;> simp [factoryInvalid, truthy, typeofStr]
  refine ⟨hchar, ?_⟩
  have hcf : codeCheckFails (JsVal.str s) = false := by
    simp [codeCheckFails, truthy, typeofStr, hs]
  unfold renderHandler
  rw [if_neg (by simp [hcf])]
  dsimp only
  unfold runPipeline
  rw [hb]
  dsimp only
  rw [if_neg ht, he]
  dsimp only
  rw [if_pos ((hchar v).mpr hv)]

/-- Claim C2, witness: user code whose export slot holds the number 3
is answered with the NoComponentError message. -/
theorem claim_C2_witness :
    (renderHandler effBad st0 reqX).response =
      errorResponse none
        { message := "No valid component factory returned from user code" } :=
  (claim_C2_theorem effBad st0 "x" (userSource "x") none st0 (JsVal.num 3)
    (by decide) rfl (by decide) rfl
    (by rintro (⟨r, h⟩ | ⟨r, h⟩) <;> simp at h)).2

/-- Claim C3: no exception escapes the request boundary: every
invocation of the handler produces a response, and that response is
either the success response (status 200) or the structured failure of
the catch block -- status 400, success false, the originating error's
text in the error field. -/
theorem claim_C3_theorem (eff : Effects) (st : HostState) (req : RenderRequest) :
    ((renderHandler eff st req).response.success = true ∧
      (renderHandler eff st req).response.status = 200) ∨
    ∃ e : JsError,
      (renderHandler eff st req).response = errorResponse eff.nodeEnv e ∧
      (renderHandler eff st req).response.success = false ∧
      (renderHandler eff st req).response.status = 400 ∧
      (renderHandler eff st req).response.error = some (jsErrorText e) := by
  rcases renderHandler_cases eff st req with ⟨hresp, _, _, _⟩ | ⟨s, hcode, heq⟩
  · right
    refine ⟨{ message := "No code provided" }, ?_, ?_, ?_, ?_⟩
    · rw [hresp]; exact noCodeResponse_eq_errorResponse eff.nodeEnv
    · rw [hresp]; rfl
    · rw [hresp]; rfl
    · rw [hresp]; decide
  · rw [heq]
    have h := runPipeline_cases eff st s (effectiveProps req.props)
    rcases h.2.1 with hsucc | ⟨e, herr⟩
    · left
      rcases h.2.2.2.2.2 hsucc with ⟨frag, hresp⟩
      rw [hresp]
      exact ⟨rfl, rfl⟩
    · right
      exact ⟨e, herr, by rw [herr]; rfl, by rw [herr]; rfl, by rw [herr]; rfl⟩

/-- Claim C4, counterexample: a request whose evaluated user code
writes through the registry reference handed out by the require
resolver leaves the registry changed; a request whose user component
writes the registry only while rendering (evaluation touches nothing)
also leaves the registry changed; and two runs of the same request
against different on-disk stylesheet contents inline different
stylesheets -- so the registry is not read-only against requests, and
the stylesheet is read per request rather than loaded once at
startup. -/
theorem claim_C4_counterexample :
    (renderHandler effMut st0 reqX).stateAfter.registry ≠ st0.registry ∧
    (renderHandler effRenderMut st0 reqX).stateAfter.registry ≠ st0.registry ∧
    (∀ t p s, (effRenderMut.evalUser t p s).1 = s) ∧
    (renderHandler effOk stCssA reqX).response.success = true ∧
    (renderHandler effOk stCssB reqX).response.success = true ∧
    (renderHandler effOk stCssA reqX).response.html ≠
      (renderHandler effOk stCssB reqX).response.html := by
  refine ⟨by decide, by decide, fun _ _ _ => rfl, rfl, rfl, by decide⟩

/-- Claim C4 (amended): the handler's own code never mutates the
registry or any shared state -- after each request the state is either
untouched, or exactly what the user-code evaluation left, or what
rendering the evaluated component then left (rendering executes the
user's component, so it too can write) -- and every html the handler
emits inlines the stylesheet content read at request time from the
filesystem state as rendering left it (empty when both reads fail),
not a string loaded once at startup. -/
theorem claim_C4_theorem (eff : Effects) (st : HostState) (req : RenderRequest) :
    ((renderHandler eff st req).stateAfter = st ∨
      (∃ t, (renderHandler eff st req).stateAfter =
        (eff.evalUser t (effectiveProps req.props) st).1) ∨
      (∃ t v st2, eff.evalUser t (effectiveProps req.props) st = (st2, .ok v) ∧
        (renderHandler eff st req).stateAfter =
          (eff.render v (effectiveProps req.props) st2).1)) ∧
    (∀ doc, (renderHandler eff st req).response.html = some doc →
      ∃ frag, doc = completeHTML
        (cssContentOf (renderHandler eff st req).stateAfter.fsCssMain
          (renderHandler eff st req).stateAfter.fsCssAlt) frag) := by
  rcases renderHandler_cases eff st req with ⟨hresp, _, _, hst⟩ | ⟨s, hcode, heq⟩
  · refine ⟨Or.inl hst, fun doc hdoc => ?_⟩
    rw [hresp] at hdoc
    simp [noCodeResponse] at hdoc
  · rw [heq]
    have h := runPipeline_cases eff st s (effectiveProps req.props)
    exact ⟨h.2.2.1, h.2.2.2.2.1⟩

/-- Claim C4, witness at a concrete request whose stages are benign
and whose stylesheet reads fail. -/
theorem claim_C4_witness :
    ((renderHandler effOk st0 reqX).stateAfter = st0 ∨
      (∃ t, (renderHandler effOk st0 reqX).stateAfter =
        (effOk.evalUser t (effectiveProps reqX.props) st0).1) ∨
      (∃ t v st2, effOk.evalUser t (effectiveProps reqX.props) st0 = (st2, .ok v) ∧
        (renderHandler effOk st0 reqX).stateAfter =
          (effOk.render v (effectiveProps reqX.props) st2).1)) ∧
    ∃ frag, completeHTML "" "<div></div>" = completeHTML
      (cssContentOf (renderHandler effOk st0 reqX).stateAfter.fsCssMain
        (renderHandler effOk st0 reqX).stateAfter.fsCssAlt) frag :=
  ⟨(claim_C4_theorem effOk st0 reqX).1,
   (claim_C4_theorem effOk st0 reqX).2 (completeHTML "" "<div></div>") rfl⟩

/-- Claim C5, counterexample: user code that keeps a counter on the
shared registry (reachable through the require resolver) and renders
the value it read makes two identical submissions in sequence produce
two successful responses with different html -- state from the first
request is visible to the second.  Moreover, a registry-only proviso
would not rescue the claim: user code keeping its counter on
globalThis leaves the registry of every request unchanged and still
produces different html on the second identical submission. -/
theorem claim_C5_counterexample :
    ((renderHandler effCounter stCounter reqX).response.success = true ∧
      (renderHandler effCounter
        (renderHandler effCounter stCounter reqX).stateAfter reqX).response.success = true ∧
      (renderHandler effCounter stCounter reqX).response.html ≠
        (renderHandler effCounter
          (renderHandler effCounter stCounter reqX).stateAfter reqX).response.html) ∧
    ((renderHandler effGlobals stGlobals reqX).stateAfter.registry = stGlobals.registry ∧
      (renderHandler effGlobals stGlobals reqX).response.success = true ∧
      (renderHandler effGlobals
        (renderHandler effGlobals stGlobals reqX).stateAfter reqX).response.success = true ∧
      (renderHandler effGlobals stGlobals reqX).response.html ≠
        (renderHandler effGlobals
          (renderHandler effGlobals stGlobals reqX).stateAfter reqX).response.html) := by
  refine ⟨⟨rfl, rfl, by decide⟩, ⟨rfl, rfl, rfl, by decide⟩⟩

/-- Claim C5 (amended): the handler threads no per-request state of
its own: whenever neither the evaluation of the user code nor the
rendering of its component writes any of the shared mutable host state
(registry, globals, stylesheet files), two identical submissions in
sequence produce identical outcomes, byte-identical html in
particular.  The claim fails in general because both stages execute
user code holding live references to that shared state. -/
theorem claim_C5_theorem (eff : Effects) (st : HostState) (req : RenderRequest)
    (hev : ∀ t p s, (eff.evalUser t p s).1 = s)
    (hrd : ∀ v p s, (eff.render v p s).1 = s) :
    renderHandler eff (renderHandler eff st req).stateAfter req =
      renderHandler eff st req := by
  have hst : (renderHandler eff st req).stateAfter = st := by
    rcases renderHandler_cases eff st req with ⟨_, _, _, h4⟩ | ⟨s, hcode, heq⟩
    · exact h4
    · rw [heq]
      rcases (runPipeline_cases eff st s (effectiveProps req.props)).2.2.1 with
        h | ⟨t, h⟩ | ⟨t, v, st2, hevq, h⟩
      · exact h
      · rw [h, hev]
      · have h2 : st2 = st := by
          have := congrArg Prod.fst hevq
          rw [hev] at this
          exact this.symm
        rw [h, hrd, h2]
  rw [hst]

/-- Claim C5, witness: with user code that writes no shared state at
evaluation or render, the second identical submission reproduces the
first outcome exactly. -/
theorem claim_C5_witness :
    renderHandler effOk (renderHandler effOk st0 reqX).stateAfter reqX =
      renderHandler effOk st0 reqX :=
  claim_C5_theorem effOk st0 reqX (fun _ _ _ => rfl) (fun _ _ _ => rfl)

/-- Splitting the template's head part around a piece locates that
piece in the assembled document. -/
theorem occursIn_of_head (css frag : String) {l p r : String}
    (h : htmlDocHead = l ++ p ++ r) :
    occursIn p (completeHTML css frag) := by
  refine ⟨l, r ++ css ++ htmlDocMid ++ frag ++ htmlDocTail, ?_⟩
  unfold completeHTML
  rw [h]
  simp [String.append_assoc]

/-- Splitting the template's middle part around a piece locates that
piece in the assembled document. -/
theorem occursIn_of_mid (css frag : String) {l p r : String}
    (h : htmlDocMid = l ++ p ++ r) :
    occursIn p (completeHTML css frag) := by
  refine ⟨htmlDocHead ++ css ++ l, r ++ frag ++ htmlDocTail, ?_⟩
  unfold completeHTML
  rw [h]
  simp [String.append_assoc]

/-- Splitting the template's tail part around a piece locates that
piece in the assembled document. -/
theorem occursIn_of_tail (css frag : String) {l p r : String}
    (h : htmlDocTail = l ++ p ++ r) :
    occursIn p (completeHTML css frag) := by
  refine ⟨htmlDocHead ++ css ++ htmlDocMid ++ frag ++ l, r, ?_⟩
  unfold completeHTML
  rw [h]
  simp [String.append_assoc]

/-- Claim C6: every assembled document is the fixed template around
the stylesheet and the fragment: it starts with the doctype, ends with
the document close tag, carries the fixed head (charset and viewport
metadata, title), inlines the stylesheet inside the style block, and
wraps the fragment inside the container div with identifier app in the
body (so the body region is never empty). -/
theorem claim_C6_theorem (css frag : String) :
    completeHTML css frag =
      htmlDocHead ++ css ++ htmlDocMid ++ frag ++ htmlDocTail ∧
    (∃ rest, completeHTML css frag = "<!DOCTYPE html>" ++ rest) ∧
    (∃ init, completeHTML css frag = init ++ "</html>") ∧
    occursIn "<html lang=\"en\">" (completeHTML css frag) ∧
    occursIn "<head>" (completeHTML css frag) ∧
    occursIn "<meta charset=\"UTF-8\">" (completeHTML css frag) ∧
    occursIn "<meta name=\"viewport\" content=\"width=device-width, initial-scale=1.0\">"
      (completeHTML css frag) ∧
    occursIn "<title>React Component</title>" (completeHTML css frag) ∧
    occursIn ("<style>\n        " ++ css ++ "\n    </style>") (completeHTML css frag) ∧
    occursIn "</head>" (completeHTML css frag) ∧
    occursIn "<body>" (completeHTML css frag) ∧
    occursIn ("<div id=\"app\">\n        " ++ frag ++ "\n    </div>") (completeHTML css frag) ∧
    occursIn "</body>" (completeHTML css frag) := by
  refine ⟨rfl, ?_, ?_, ?_, ?_, ?_, ?_, ?_, ?_, ?_, ?_, ?_, ?_⟩
  · refine ⟨"\n<html lang=\"en\">\n<head>\n    <meta charset=\"UTF-8\">\n    <meta name=\"viewport\" content=\"width=device-width, initial-scale=1.0\">\n    <title>React Component</title>\n    <style>\n        " ++ css ++ htmlDocMid ++ frag ++ htmlDocTail, ?_⟩
    have h : htmlDocHead = "<!DOCTYPE html>" ++ "\n<html lang=\"en\">\n<head>\n    <meta charset=\"UTF-8\">\n    <meta name=\"viewport\" content=\"width=device-width, initial-scale=1.0\">\n    <title>React Component</title>\n    <style>\n        " := rfl
    unfold completeHTML
    rw [h]
    simp only [String.append_assoc]
  · refine ⟨htmlDocHead ++ css ++ htmlDocMid ++ frag ++ "\n    </div>\n    \n</body>\n", ?_⟩
    have h : htmlDocTail = "\n    </div>\n    \n</body>\n" ++ "</html>" := rfl
    unfold completeHTML
    rw [h]
    simp only [String.append_assoc]
  · exact occursIn_of_head css frag
      (l := "<!DOCTYPE html>\n")
      (r := "\n<head>\n    <meta charset=\"UTF-8\">\n    <meta name=\"viewport\" content=\"width=device-width, initial-scale=1.0\">\n    <title>React Component</title>\n    <style>\n        ") rfl
  · exact occursIn_of_head css frag
      (l := "<!DOCTYPE html>\n<html lang=\"en\">\n")
      (r := "\n    <meta charset=\"UTF-8\">\n    <meta name=\"viewport\" content=\"width=device-width, initial-scale=1.0\">\n    <title>React Component</title>\n    <style>\n        ") rfl
  · exact occursIn_of_head css frag
      (l := "<!DOCTYPE html>\n<html lang=\"en\">\n<head>\n    ")
      (r := "\n    <meta name=\"viewport\" content=\"width=device-width, initial-scale=1.0\">\n    <title>React Component</title>\n    <style>\n        ") rfl
  · exact occursIn_of_head css frag
      (l := "<!DOCTYPE html>\n<html lang=\"en\">\n<head>\n    <meta charset=\"UTF-8\">\n    ")
      (r := "\n    <title>React Component</title>\n    <style>\n        ") rfl
  · exact occursIn_of_head css frag
      (l := "<!DOCTYPE html>\n<html lang=\"en\">\n<head>\n    <meta charset=\"UTF-8\">\n    <meta name=\"viewport\" content=\"width=device-width, initial-scale=1.0\">\n    ")
      (r := "\n    <style>\n        ") rfl
  · refine ⟨"<!DOCTYPE html>\n<html lang=\"en\">\n<head>\n    <meta charset=\"UTF-8\">\n    <meta name=\"viewport\" content=\"width=device-width, initial-scale=1.0\">\n    <title>React Component</title>\n    ",
      "\n</head>\n<body>\n    <div id=\"app\">\n        " ++ frag ++ htmlDocTail, ?_⟩
    have h1 : htmlDocHead = "<!DOCTYPE html>\n<html lang=\"en\">\n<head>\n    <meta charset=\"UTF-8\">\n    <meta name=\"viewport\" content=\"width=device-width, initial-scale=1.0\">\n    <title>React Component</title>\n    " ++ "<style>\n        " := rfl
    have h2 : htmlDocMid = "\n    </style>" ++ "\n</head>\n<body>\n    <div id=\"app\">\n        " := rfl
    unfold completeHTML
    rw [h1, h2]
    simp only [String.append_assoc]
  · exact occursIn_of_mid css frag
      (l := "\n    </style>\n")
      (r := "\n<body>\n    <div id=\"app\">\n        ") rfl
  · exact occursIn_of_mid css frag
      (l := "\n    </style>\n</head>\n")
      (r := "\n    <div id=\"app\">\n        ") rfl
  · refine ⟨htmlDocHead ++ css ++ "\n    </style>\n</head>\n<body>\n    ",
      "\n    \n</body>\n</html>", ?_⟩
    have h1 : htmlDocMid = "\n    </style>\n</head>\n<body>\n    " ++ "<div id=\"app\">\n        " := rfl
    have h2 : htmlDocTail = "\n    </div>" ++ "\n    \n</body>\n</html>" := rfl
    unfold completeHTML
    rw [h1, h2]
    simp only [String.append_assoc]
  · exact occursIn_of_tail css frag
      (l := "\n    </div>\n    \n")
      (r := "\n</html>") rfl

/-- Claim C7: the transform step is exactly the fixed trailer append
(assigning the component identifier to the module's export slot)
followed by the compiler at the constant configuration, whose on-disk
configuration lookups (babelrc, configFile) are disabled; equal input
texts therefore give equal outputs. -/
theorem claim_C7_theorem (babel : String → BabelConfig → Except JsError (Option String))
    (code : String) :
    transformSource babel code = babel (code ++ moduleExportTrailer) renderBabelConfig ∧
    moduleExportTrailer = "\nmodule.exports = MyComponent;" ∧
    renderBabelConfig.babelrc = false ∧
    renderBabelConfig.configFile = false ∧
    (∀ code2, code = code2 → transformSource babel code = transformSource babel code2) :=
  ⟨rfl, rfl, rfl, rfl, fun _ h => by rw [h]⟩

/-- Claim C7, witness at a concrete compiler and input. -/
theorem claim_C7_witness :
    transformSource okBabel "x" = okBabel ("x" ++ moduleExportTrailer) renderBabelConfig ∧
    transformSource okBabel "x" = transformSource okBabel "x" :=
  ⟨(claim_C7_theorem okBabel "x").1, (claim_C7_theorem okBabel "x").2.2.2.2 "x" rfl⟩

/-- Claim C8: when both stylesheet reads fail at request time (the
filesystem state rendering left holds neither file), the request still
succeeds, producing the complete document with an empty style
block. -/
theorem claim_C8_theorem (eff : Effects) (st : HostState) (s t : String)
    (props : Option JsVal) (st2 st3 : HostState) (v : JsVal) (frag : String)
    (hs : s ≠ "")
    (hb : transformSource eff.babel s = .ok (some t)) (ht : t ≠ "")
    (he : eff.evalUser t (effectiveProps props) st = (st2, .ok v))
    (hv : factoryInvalid v = false)
    (hr : eff.render v (effectiveProps props) st2 = (st3, .ok frag))
    (hfs1 : st3.fsCssMain = none) (hfs2 : st3.fsCssAlt = none) :
    (renderHandler eff st { code := JsVal.str s, props := props }).response =
      successResponse (completeHTML "" frag) := by
  have hcf : codeCheckFails (JsVal.str s) = false := by
    simp [codeCheckFails, truthy, typeofStr, hs]
  unfold renderHandler
  rw [if_neg (by simp [hcf])]
  dsimp only
  unfold runPipeline
  rw [hb]
  dsimp only
  rw [if_neg ht, he]
  dsimp only
  rw [if_neg (by simp [hv]), hr]
  dsimp only
  rw [hfs1, hfs2]
  rfl

/-- Claim C8, witness: both reads fail and the response is the success
document with the empty style block. -/
theorem claim_C8_witness :
    (renderHandler effOk st0 { code := JsVal.str "x", props := none }).response =
      successResponse (completeHTML "" "<div></div>") :=
  claim_C8_theorem effOk st0 "x" (userSource "x") none st0 st0 (JsVal.fn 1) "<div></div>"
    (by decide) rfl (by decide) rfl (by decide) rfl rfl rfl

/-- Claim C9, counterexample: with NODE_ENV set to test -- outside
production-like mode -- a compiler failure whose error carries a stack
trace is answered without the stack field, refuting "included exactly
when outside production-like mode". -/
theorem claim_C9_counterexample :
    outsideProductionLike effTestEnv.nodeEnv ∧
    failBabel (userSource "x") renderBabelConfig =
      .error { message := "boom", stack := some "trace line", strRepr := "" } ∧
    (renderHandler effTestEnv st0 reqX).response.success = false ∧
    (renderHandler effTestEnv st0 reqX).response.error = some "boom" ∧
    (renderHandler effTestEnv st0 reqX).response.stack = none := by
  refine ⟨by unfold outsideProductionLike; decide, rfl, rfl, rfl, rfl⟩

/-- Claim C9 (amended): every failure response has the shape of the
catch block: the error field carries the originating error's text, and
the stack field holds the originating stack exactly when NODE_ENV
equals development, and is omitted for every other value (including
values outside production-like mode, such as test or unset). -/
theorem claim_C9_theorem (eff : Effects) (st : HostState) (req : RenderRequest)
    (hfail : (renderHandler eff st req).response.success = false) :
    ∃ e : JsError,
      (renderHandler eff st req).response = errorResponse eff.nodeEnv e ∧
      (renderHandler eff st req).response.error = some (jsErrorText e) ∧
      (renderHandler eff st req).response.stack =
        (if eff.nodeEnv = some "development" then e.stack else none) := by
  rcases renderHandler_cases eff st req with ⟨hresp, _, _, _⟩ | ⟨s, hcode, heq⟩
  · refine ⟨{ message := "No code provided" }, ?_, ?_, ?_⟩
    · rw [hresp]; exact noCodeResponse_eq_errorResponse eff.nodeEnv
    · rw [hresp]; decide
    · rw [hresp]; simp [noCodeResponse]
  · rw [heq] at hfail ⊢
    rcases (runPipeline_cases eff st s (effectiveProps req.props)).2.1 with hsucc | ⟨e, herr⟩
    · simp [hsucc] at hfail
    · exact ⟨e, herr, by rw [herr]; rfl, by rw [herr]; rfl⟩

/-- Claim C9, witness in development mode: the stack is included. -/
theorem claim_C9_witness :
    ∃ e : JsError,
      (renderHandler effDevEnv st0 reqX).response = errorResponse effDevEnv.nodeEnv e ∧
      (renderHandler effDevEnv st0 reqX).response.error = some (jsErrorText e) ∧
      (renderHandler effDevEnv st0 reqX).response.stack =
        (if effDevEnv.nodeEnv = some "development" then e.stack else none) :=
  claim_C9_theorem effDevEnv st0 reqX rfl

/-- Claim C10: props is never validated: an absent or undefined props
field becomes the empty object, any other value (null, numbers,
strings, arrays as objects) passes through unchanged, validation looks
only at the code field, and whenever evaluation is reached both the
execution-context binding and the element-construction argument
receive exactly the effective props value. -/
theorem claim_C10_theorem :
    effectiveProps none = defaultProps ∧
    effectiveProps (some JsVal.undef) = defaultProps ∧
    (∀ v, v ≠ JsVal.undef → effectiveProps (some v) = v) ∧
    (∀ eff st code props,
      (renderHandler eff st { code := code, props := props }).babelCalled =
        (renderHandler eff st { code := code, props := none }).babelCalled) ∧
    (∀ eff st req, (renderHandler eff st req).evalProps = none ∨
      (renderHandler eff st req).evalProps = some (effectiveProps req.props)) := by
  refine ⟨rfl, rfl, ?_, ?_, ?_⟩
  · intro v hv
    cases v <;> first | rfl | exact absurd rfl hv
  · intro eff st code props
    by_cases hc : codeCheckFails code = true
    · rw [(babelCalled_iff eff st { code := code, props := props }).mpr hc,
        (babelCalled_iff eff st { code := code, props := none }).mpr hc]
    · cases hb1 : (renderHandler eff st { code := code, props := props }).babelCalled with
      | false => exact absurd ((babelCalled_iff eff st _).mp hb1) hc
      | true =>
        cases hb2 : (renderHandler eff st { code := code, props := none }).babelCalled with
        | false => exact absurd ((babelCalled_iff eff st _).mp hb2) hc
        | true => rfl
  · intro eff st req
    rcases renderHandler_cases eff st req with ⟨_, _, h3, _⟩ | ⟨s, hcode, heq⟩
    · exact Or.inl h3
    · rw [heq]
      exact (runPipeline_cases eff st s (effectiveProps req.props)).2.2.2.1

/-- Claim C10, witness: a null props value is passed through unchanged
and reaches the evaluation scope. -/
theorem claim_C10_witness :
    effectiveProps (some JsVal.null) = JsVal.null ∧
    ((renderHandler effOk st0 { code := JsVal.str "x", props := some JsVal.null }).evalProps = none ∨
      (renderHandler effOk st0 { code := JsVal.str "x", props := some JsVal.null }).evalProps =
        some (effectiveProps (some JsVal.null))) :=
  ⟨claim_C10_theorem.2.2.1 JsVal.null (by decide),
   claim_C10_theorem.2.2.2.2 effOk st0 { code := JsVal.str "x", props := some JsVal.null }⟩
